import Mathlib

/-!
Shallow embedding of the classification heuristics of
`src/reddit.py` (Reddit Unanswered Questions Finder), together with
proofs of the spec's claims about them.

Python strings are modelled as their character sequences
(`List Char`, obtained from Lean `String` arguments via `.data`),
Python floats become `ℚ` (all the constants involved are exact
decimals), and the lazily fetched comment list together with its
possible fetch failure becomes an `Option (List RedditComment)`
argument. The Python string primitives used by the code —
`.lower()`, `.strip()`, `.split()`, `.startswith()`, `.endswith()`,
`len()` and the `in` substring test — are embedded as the explicit
character-list functions `lowerL`, `stripL`, `wordsL`,
`List.isPrefixOf`, `List.isSuffixOf`, `List.length` and
`listContainsSub` below.
-/

namespace Reddit

/-- Python's `s.lower()` (ASCII case mapping, applied characterwise). -/
def lowerL (l : List Char) : List Char :=
  l.map Char.toLower

/-- Python's `s.strip()`: drop leading and trailing whitespace. -/
def stripL (l : List Char) : List Char :=
  ((l.dropWhile Char.isWhitespace).reverse.dropWhile Char.isWhitespace).reverse

/-- Accumulating pass of `wordsL`: `acc` holds the (reversed) current
word being scanned. -/
def wordsAux : List Char → List Char → List (List Char)
  | [], acc => if acc = [] then [] else [acc.reverse]
  | c :: rest, acc =>
    if Char.isWhitespace c then
      if acc = [] then wordsAux rest []
      else acc.reverse :: wordsAux rest []
    else wordsAux rest (c :: acc)

/-- Python's `s.split()`: the maximal non-whitespace runs of `s`. -/
def wordsL (l : List Char) : List (List Char) :=
  wordsAux l []

/-- Substring occurrence: `needle` occurs contiguously in `l`, i.e. it
is a prefix of some suffix of `l`. This is the semantics of Python's
`needle in s` for strings. -/
def listContainsSub (l needle : List Char) : Bool :=
  (List.range (l.length + 1)).any fun i => needle.isPrefixOf (l.drop i)

/-- Python's `needle in s` substring test, at `String` level. -/
def strContains (s needle : String) : Bool :=
  listContainsSub s.data needle.data

/-- The lowercased combined text `f"{title} {content}".lower()` used by
`is_promotional_content` and `is_genuine_question`. -/
def combinedLower (title content : String) : List Char :=
  lowerL (title.data ++ ' ' :: content.data)

/-- The `promo_indicators` lexicon of `is_promotional_content`. -/
def promo_indicators : List String :=
  ["watch the video", "tutorial below", "link in bio", "dm me", "check out",
   "affiliate", "sponsored", "promotion", "advertisement", "buy now",
   "limited time", "special offer", "discount", "sale", "deal",
   "click here", "subscribe", "follow me", "my channel", "my course",
   "will change everything", "secret method", "exposed", "truth about",
   "nobody talks about", "revolutionary", "game changer"]

/-- The `url_patterns` lexicon of `is_promotional_content`. -/
def url_patterns : List String :=
  ["youtube.com", "youtu.be", "bit.ly", "tinyurl.com", "goo.gl"]

/-- The `promo_score` accumulated by the two counting loops of
`is_promotional_content`, as a function of the (already lowercased,
combined) text: one point per lexicon entry occurring in the text. -/
def promo_score_of (text : List Char) : Nat :=
  promo_indicators.countP (fun ind => listContainsSub text ind.data)
    + url_patterns.countP (fun pat => listContainsSub text pat.data)

/-- The match count of `is_promotional_content` as a function of the
raw (not yet lowercased) input text. -/
def promo_match_count (text : String) : Nat :=
  promo_score_of (lowerL text.data)

/-- `is_promotional_content(title, content)` from `src/reddit.py`:
lowercase the space-joined title and content and test whether at least
two lexicon entries (promotional indicators plus URL patterns) occur. -/
def is_promotional_content (title content : String) : Bool :=
  decide (promo_score_of (combinedLower title content) ≥ 2)

/-- The `question_words` lexicon of `is_genuine_question`. -/
def question_words : List String :=
  ["?", "how", "what", "why", "which", "where", "when", "who"]

/-- The `help_words` lexicon of `is_genuine_question`. -/
def help_words : List String :=
  ["help", "advice", "recommend", "suggest", "opinion", "thoughts"]

/-- The `seeking_words` lexicon of `is_genuine_question`. -/
def seeking_words : List String :=
  ["looking for", "need", "want", "seeking", "trying to find"]

/-- `is_genuine_question(title, content)` from `src/reddit.py`: true iff
the lowercased combined text contains a question word, a help word, or
a seeking phrase. -/
def is_genuine_question (title content : String) : Bool :=
  let text := combinedLower title content
  question_words.any (fun w => listContainsSub text w.data)
    || help_words.any (fun w => listContainsSub text w.data)
    || seeking_words.any (fun w => listContainsSub text w.data)

/-- The `seo_related` bonus lexicon of `calculate_enhanced_relevance_score`. -/
def seo_related : List String :=
  ["search engine optimization", "digital marketing", "google ranking",
   "website traffic", "keyword research", "backlinks", "optimization",
   "ranking", "search engine", "google", "marketing", "traffic",
   "organic", "serp", "meta", "analytics"]

/-- The `course_related` bonus lexicon of `calculate_enhanced_relevance_score`. -/
def course_related : List String :=
  ["tutorial", "learn", "training", "education", "class", "lesson",
   "certification", "certificate", "program", "bootcamp", "academy",
   "instructor", "teacher", "beginner", "advanced", "online learning"]

/-- The `question_contexts` lexicon of `calculate_enhanced_relevance_score`. -/
def question_contexts : List String :=
  ["best course", "recommend course", "good course", "which course",
   "course recommendation", "learning", "study", "beginner",
   "start with", "where to learn", "how to learn"]

/-- The additive part of `calculate_enhanced_relevance_score(title,
content, keyword)`: the value of the local `score` variable just before
the promotional penalty is applied. Each `for` loop adding `0.15` per
lexicon match is a `foldl`; the `question_contexts` loop adds `0.2`
once and breaks, i.e. `+0.2` when `any` context matches. -/
def additive_relevance_sum (title content keyword : String) : ℚ :=
  let keyword_lower := lowerL keyword.data
  let title_lower := lowerL title.data
  let content_lower := lowerL content.data
  let full_text := title_lower ++ ' ' :: content_lower
  let score : ℚ := 0
  let score := if listContainsSub title_lower keyword_lower then
      score + 0.5 +
        (if (wordsL title_lower).any
            (fun w => listContainsSub w keyword_lower || listContainsSub keyword_lower w)
         then 0.2 else 0)
    else score
  let score := if listContainsSub content_lower keyword_lower then score + 0.3 else score
  let score := if listContainsSub keyword_lower "seo".data then
      seo_related.foldl
        (fun acc term => if listContainsSub full_text term.data then acc + 0.15 else acc)
        score
    else score
  let score := if listContainsSub keyword_lower "course".data then
      course_related.foldl
        (fun acc term => if listContainsSub full_text term.data then acc + 0.15 else acc)
        score
    else score
  let score := if question_contexts.any (fun ctx => listContainsSub full_text ctx.data) then
      score + 0.2
    else score
  score

/-- `calculate_enhanced_relevance_score(title, content, keyword)` from
`src/reddit.py`: the additive sum, multiplied by `0.3` when
`is_promotional_content` fires on the same title and content, and
finally clamped with `min(score, 1.0)`. -/
def calculate_enhanced_relevance_score (title content keyword : String) : ℚ :=
  let score := additive_relevance_sum title content keyword
  let score := if is_promotional_content title content then score * 0.3 else score
  min score 1

/-- The `low_quality` lexicon of `is_meaningful_comment`. -/
def low_quality : List String :=
  ["thanks", "thank you", "thx", "+1", "same", "this", "agreed",
   "yes", "no", "upvoted", "bump", "following", "interested",
   "me too", "same here", "lol", "nice", "cool", "good luck"]

/-- The `meaningful_indicators` lexicon of `is_meaningful_comment`. -/
def meaningful_indicators : List String :=
  ["recommend", "suggest", "try", "use", "check out", "experience",
   "worked for me", "helped me", "solution", "answer", "result"]

/-- `is_meaningful_comment(comment_body)` from `src/reddit.py`:
false on the empty body or a body whose stripped form is shorter than
15 characters; false when the lowercased stripped body is itself a
low-quality phrase; otherwise true iff the whitespace word count is at
least 5 and (a meaningful indicator occurs in the lowercased stripped
body, or the word count is at least 20). -/
def is_meaningful_comment (comment_body : String) : Bool :=
  if comment_body.data = [] || (stripL comment_body.data).length < 15 then false
  else
    let comment_lower := stripL (lowerL comment_body.data)
    if (low_quality.map String.data).contains comment_lower then false
    else
      let word_count := (wordsL comment_body.data).length
      let has_meaningful_content :=
        meaningful_indicators.any (fun ind => listContainsSub comment_lower ind.data)
      decide (word_count ≥ 5) && (has_meaningful_content || decide (word_count ≥ 20))

/-- A fetched comment. Praw comment-forest items may lack a `body`
attribute (`MoreComments`), which `hasattr(comment, 'body')` guards;
`body = none` models that case. -/
structure RedditComment where
  body : Option String
deriving Repr, DecidableEq

/-- Whether one fetched comment increments `meaningful_comments` in the
loop of `is_unanswered_enhanced`: it must have a non-empty body that
does not start (lowercased) with `[deleted]` or `[removed]`, and
`is_meaningful_comment` must accept it. -/
def comment_counts_meaningful (c : RedditComment) : Bool :=
  match c.body with
  | none => false
  | some b =>
    if b.data = [] then false
    else if List.isPrefixOf "[deleted]".data (lowerL b.data)
         || List.isPrefixOf "[removed]".data (lowerL b.data) then false
    else is_meaningful_comment b

/-- The comment loop of `is_unanswered_enhanced`: walk the fetched
comments keeping a running count of meaningful ones, returning `false`
(answered) as soon as the count exceeds `threshold = max_comments // 2`,
and `true` (unanswered) when the loop finishes. -/
def meaningful_loop (comments : List RedditComment) (meaningful threshold : Nat) : Bool :=
  match comments with
  | [] => true
  | c :: rest =>
    if comment_counts_meaningful c then
      if meaningful + 1 > threshold then false
      else meaningful_loop rest (meaningful + 1) threshold
    else meaningful_loop rest meaningful threshold

/-- `is_unanswered_enhanced(submission, max_comments)` from
`src/reddit.py`, inside its outer `try`. `num_comments` is
`submission.num_comments`; `fetch` is the outcome of
`submission.comments.replace_more(limit=1)` plus the comment listing,
with `none` standing for an exception raised while fetching or
expanding (the inner bare `except`, which returns unanswered). The
loop slices the first `max_comments + 2` fetched comments. -/
def is_unanswered_enhanced (num_comments max_comments : Nat)
    (fetch : Option (List RedditComment)) : Bool :=
  if num_comments = 0 then true
  else if num_comments > max_comments * 2 then false
  else if num_comments ≤ max_comments then
    match fetch with
    | none => true
    | some comments =>
      meaningful_loop (comments.take (max_comments + 2)) 0 (max_comments / 2)
  else false

/-- `is_unanswered_enhanced` with its outer `except` handler:
`outer_exc = true` models an exception escaping to the outer `try`
(e.g. a failing lazy attribute load on the submission), in which case
the function degrades to the plain threshold check
`submission.num_comments <= max_comments`. -/
def is_unanswered_outer (outer_exc : Bool) (num_comments max_comments : Nat)
    (fetch : Option (List RedditComment)) : Bool :=
  if outer_exc then decide (num_comments ≤ max_comments)
  else is_unanswered_enhanced num_comments max_comments fetch

/-- The minimum-content-length filter of
`search_unanswered_questions_enhanced` (lines 331-334 of
`src/reddit.py`): a post is skipped (`continue`) iff its selftext
length is below `min_content_length` and its title does not end with
`?`. This function returns `true` when the post passes the filter. -/
def content_length_filter_passes (title selftext : String)
    (min_content_length : Nat) : Bool :=
  !(decide (selftext.data.length < min_content_length)
      && !(List.isSuffixOf "?".data title.data))

end Reddit

namespace Reddit

/-- Appending text on the right preserves every substring occurrence. -/
theorem listContainsSub_append (l t needle : List Char)
    (h : listContainsSub l needle = true) :
    listContainsSub (l ++ t) needle = true := by
  unfold listContainsSub at h ⊢
  rcases List.any_eq_true.mp h with ⟨i, hi, hpre⟩
  rcases List.mem_range.mp hi with hilt
  apply List.any_eq_true.mpr
  refine ⟨i, List.mem_range.mpr ?_, ?_⟩
  · have := Nat.lt_succ_iff.mp hilt
    exact Nat.lt_succ_of_le (le_trans this (by simp [Nat.le_add_right]))
  · have hle : i ≤ l.length := Nat.lt_succ_iff.mp hilt
    rw [List.drop_append_of_le_length hle]
    have h1 : needle <+: l.drop i := by
      exact (List.isPrefixOf_iff_prefix).mp hpre
    have h2 : needle <+: l.drop i ++ t := h1.trans (List.prefix_append _ _)
    exact (List.isPrefixOf_iff_prefix).mpr h2

/-- Lowercasing maps over characters, so it distributes over append. -/
theorem lowerL_append (l t : List Char) :
    lowerL (l ++ t) = lowerL l ++ lowerL t := by
  simp [lowerL]

/-- The combined promotional match count only grows when text is
appended on the right. -/
theorem promo_score_of_append_mono (text extra : List Char) :
    promo_score_of text ≤ promo_score_of (text ++ extra) := by
  unfold promo_score_of
  apply Nat.add_le_add
  · exact List.countP_mono_left fun a _ h => listContainsSub_append _ _ _ h
  · exact List.countP_mono_left fun a _ h => listContainsSub_append _ _ _ h

/-- Claim C6: `is_promotional_content` returns true exactly when the
number of promotional indicator phrases occurring in the lowercased
combined title-and-content text, plus the number of URL-pattern
substrings occurring in it, is at least 2. -/
theorem promotional_iff_two_matches (title content : String) :
    is_promotional_content title content = true ↔
      2 ≤ promo_indicators.countP
            (fun ind => listContainsSub (combinedLower title content) ind.data)
          + url_patterns.countP
            (fun pat => listContainsSub (combinedLower title content) pat.data) := by
  simp [is_promotional_content, promo_score_of]

/-- Claim C8: the promotional match count is monotone under appending
more text (such as further promotional indicator phrases) to the input
text. -/
theorem promo_match_count_monotone (text extra : String) :
    promo_match_count text ≤ promo_match_count (text ++ extra) := by
  unfold promo_match_count
  rw [show (text ++ extra).data = text.data ++ extra.data from rfl, lowerL_append]
  exact promo_score_of_append_mono _ _

/-- Claim C5: `is_genuine_question` returns true exactly when the
lowercased combined text contains one of the question indicators, help
words, or seeking phrases; in particular it accepts
`("How do I fix this?", "")` and rejects `("Great deal!!!", "buy now")`. -/
theorem genuine_question_spec :
    (∀ title content, is_genuine_question title content = true ↔
        ∃ w ∈ question_words ++ help_words ++ seeking_words,
          listContainsSub (combinedLower title content) w.data = true) ∧
      is_genuine_question "How do I fix this?" "" = true ∧
      is_genuine_question "Great deal!!!" "buy now" = false := by
  refine ⟨fun title content => ?_, by decide, by decide⟩
  simp only [is_genuine_question, Bool.or_eq_true, List.any_eq_true, List.mem_append]
  constructor
  · rintro ((⟨w, hw, hc⟩ | ⟨w, hw, hc⟩) | ⟨w, hw, hc⟩) <;> exact ⟨w, by tauto, hc⟩
  · rintro ⟨w, (hw | hw) | hw, hc⟩
    · exact Or.inl (Or.inl ⟨w, hw, hc⟩)
    · exact Or.inl (Or.inr ⟨w, hw, hc⟩)
    · exact Or.inr ⟨w, hw, hc⟩

/-- Claim C10: the minimum-content-length filter rejects a post exactly
when its selftext length is below the configured minimum and its title
does not end with `?`; every post whose title ends with `?` passes. -/
theorem content_length_filter_spec :
    (∀ title selftext min_content_length,
        content_length_filter_passes title selftext min_content_length = false ↔
          (selftext.data.length < min_content_length ∧
            List.isSuffixOf "?".data title.data = false)) ∧
      ∀ title selftext min_content_length,
        List.isSuffixOf "?".data title.data = true →
          content_length_filter_passes title selftext min_content_length = true := by
  constructor
  · intro title selftext min_content_length
    simp [content_length_filter_passes]
  · intro title selftext min_content_length h
    simp [content_length_filter_passes, h]

/-- Witness for claim C10: a one-character body is far below the
default minimum length of 50, yet the post passes because its title
ends with a question mark. -/
theorem content_length_filter_spec_witness :
    content_length_filter_passes "How do I fix this?" "x" 50 = true :=
  content_length_filter_spec.2 "How do I fix this?" "x" 50 (by decide)

/-- A bonus-accumulating fold (`+0.15` per lexicon match) keeps a
nonnegative accumulator nonnegative. -/
theorem bonus_foldl_nonneg (full : List Char) :
    ∀ (l : List String) (acc : ℚ), 0 ≤ acc →
      0 ≤ l.foldl
            (fun acc term => if listContainsSub full term.data then acc + 0.15 else acc)
            acc := by
  intro l
  induction l with
  | nil => intro acc h; simpa using h
  | cons x xs ih =>
    intro acc h
    simp only [List.foldl_cons]
    by_cases hx : listContainsSub full x.data
    · rw [if_pos hx]; exact ih _ (by positivity)
    · rw [if_neg hx]; exact ih _ h

/-- All the additive bonuses of the relevance scorer are nonnegative,
so the `score` variable is nonnegative just before the promotional
penalty. -/
theorem additive_relevance_sum_nonneg (title content keyword : String) :
    0 ≤ additive_relevance_sum title content keyword := by
  unfold additive_relevance_sum
  dsimp only
  split_ifs <;>
    first
      | positivity
      | (repeat first
          | positivity
          | apply add_nonneg
          | apply bonus_foldl_nonneg)

/-- Claim C1: the relevance score always lies in `[0, 1]`. -/
theorem relevance_score_in_unit_interval (title content keyword : String) :
    0 ≤ calculate_enhanced_relevance_score title content keyword ∧
      calculate_enhanced_relevance_score title content keyword ≤ 1 := by
  unfold calculate_enhanced_relevance_score
  have h := additive_relevance_sum_nonneg title content keyword
  refine ⟨le_min ?_ (by norm_num), min_le_right _ _⟩
  split_ifs
  · positivity
  · exact h

/-- Claim C4: the promotional penalty is applied after all additive
bonuses and before the final clamp. When `is_promotional_content`
fires, the result is the full additive sum times `0.3`, clamped at
`1.0`; otherwise it is the additive sum clamped at `1.0`. -/
theorem promotional_penalty_last (title content keyword : String) :
    (is_promotional_content title content = true →
        calculate_enhanced_relevance_score title content keyword =
          min (additive_relevance_sum title content keyword * 0.3) 1) ∧
      (is_promotional_content title content = false →
        calculate_enhanced_relevance_score title content keyword =
          min (additive_relevance_sum title content keyword) 1) := by
  constructor <;> intro h <;> simp [calculate_enhanced_relevance_score, h]

/-- Witness for claim C4: `("buy now", "click here")` contains two
promotional indicators and is flagged, so its score is the penalized
clamped sum; `("a", "b")` is not flagged, so its score is the plain
clamped sum. -/
theorem promotional_penalty_last_witness :
    (is_promotional_content "buy now" "click here" = true ∧
        calculate_enhanced_relevance_score "buy now" "click here" "x" =
          min (additive_relevance_sum "buy now" "click here" "x" * 0.3) 1) ∧
      (is_promotional_content "a" "b" = false ∧
        calculate_enhanced_relevance_score "a" "b" "x" =
          min (additive_relevance_sum "a" "b" "x") 1) :=
  ⟨⟨by decide, (promotional_penalty_last "buy now" "click here" "x").1 (by decide)⟩,
   ⟨by decide, (promotional_penalty_last "a" "b" "x").2 (by decide)⟩⟩

/-- The early-exit comment loop is equivalent to comparing the total
meaningful-comment count against the threshold, as long as the running
count has not yet exceeded the threshold. -/
theorem meaningful_loop_spec (comments : List RedditComment) :
    ∀ meaningful threshold : Nat, meaningful ≤ threshold →
      meaningful_loop comments meaningful threshold =
        decide (meaningful + comments.countP comment_counts_meaningful ≤ threshold) := by
  induction comments with
  | nil => intro m t h; simp [meaningful_loop, h]
  | cons c rest ih =>
    intro m t h
    simp only [meaningful_loop, List.countP_cons]
    by_cases hc : comment_counts_meaningful c
    · simp only [hc, if_pos rfl, if_true]
      by_cases hm : m + 1 > t
      · rw [if_pos hm]
        have : ¬(m + (rest.countP comment_counts_meaningful + 1) ≤ t) := by omega
        simp [this]
      · rw [if_neg hm, ih (m + 1) t (by omega)]
        apply decide_eq_decide.mpr
        omega
    · simp only [hc]
      rw [if_neg (by simp), ih m t h]
      simp

/-- Claim C2: the decision table of `is_unanswered_enhanced`. Zero
comments is unanswered with no fetch; more than twice the threshold is
answered with no fetch; between the threshold and twice the threshold
is answered; at or below the threshold, the first `max_comments + 2`
fetched comments are evaluated and the post is answered exactly when
strictly more than `max_comments / 2` of them are meaningful. -/
theorem unanswered_decision_table :
    (∀ (max_comments : Nat) (fetch : Option (List RedditComment)),
        is_unanswered_enhanced 0 max_comments fetch = true) ∧
      (∀ (num_comments max_comments : Nat) (fetch : Option (List RedditComment)),
        max_comments * 2 < num_comments →
          is_unanswered_enhanced num_comments max_comments fetch = false) ∧
      (∀ (num_comments max_comments : Nat) (fetch : Option (List RedditComment)),
        max_comments < num_comments → num_comments ≤ max_comments * 2 →
          is_unanswered_enhanced num_comments max_comments fetch = false) ∧
      (∀ (num_comments max_comments : Nat) (comments : List RedditComment),
        0 < num_comments → num_comments ≤ max_comments →
          (is_unanswered_enhanced num_comments max_comments (some comments) = false ↔
            max_comments / 2 <
              (comments.take (max_comments + 2)).countP comment_counts_meaningful)) := by
  refine ⟨fun max_comments fetch => rfl, ?_, ?_, ?_⟩
  · intro n max fetch h
    unfold is_unanswered_enhanced
    rw [if_neg (by omega), if_pos (by omega)]
  · intro n max fetch h1 h2
    unfold is_unanswered_enhanced
    rw [if_neg (by omega), if_neg (by omega), if_neg (by omega)]
  · intro n max comments h1 h2
    unfold is_unanswered_enhanced
    rw [if_neg (by omega), if_neg (by omega), if_pos h2]
    dsimp only
    rw [meaningful_loop_spec _ 0 (max / 2) (Nat.zero_le _)]
    simp only [Nat.zero_add, decide_eq_false_iff_not]
    omega

/-- Witness for claim C2, one concrete instance per row of the decision
table: no comments; eleven comments against a threshold of five; seven
comments against a threshold of five; and one meaningful comment
against a threshold of one (`1 / 2 = 0`, so one meaningful comment
already classifies the post as answered). -/
theorem unanswered_decision_table_witness :
    is_unanswered_enhanced 0 5 none = true ∧
      is_unanswered_enhanced 11 5 none = false ∧
      is_unanswered_enhanced 7 5 none = false ∧
      is_unanswered_enhanced 1 1
        (some [⟨some "i recommend you try this solution it worked for me"⟩]) = false :=
  ⟨unanswered_decision_table.1 5 none,
   unanswered_decision_table.2.1 11 5 none (by decide),
   unanswered_decision_table.2.2.1 7 5 none (by decide) (by decide),
   (unanswered_decision_table.2.2.2 1 1
       [⟨some "i recommend you try this solution it worked for me"⟩]
       (by decide) (by decide)).mpr (by decide)⟩

/-- Claim C7: a failure while fetching or expanding comments inside the
comment-quality branch yields unanswered; a failure at the outer level
degrades to the plain threshold check `num_comments ≤ max_comments`. -/
theorem unanswered_failure_modes :
    (∀ num_comments max_comments : Nat,
        0 < num_comments → num_comments ≤ max_comments →
          is_unanswered_outer false num_comments max_comments none = true) ∧
      ∀ (num_comments max_comments : Nat) (fetch : Option (List RedditComment)),
        is_unanswered_outer true num_comments max_comments fetch =
          decide (num_comments ≤ max_comments) := by
  constructor
  · intro n max h1 h2
    simp only [is_unanswered_outer, if_neg Bool.false_ne_true]
    unfold is_unanswered_enhanced
    rw [if_neg (by omega), if_neg (by omega), if_pos h2]
  · intro n max fetch
    rfl

/-- Witness for claim C7: a fetch failure on a post with three comments
against a threshold of five is unanswered, and an outer failure on a
post with seven comments against a threshold of five reduces to the
threshold comparison. -/
theorem unanswered_failure_modes_witness :
    is_unanswered_outer false 3 5 none = true ∧
      is_unanswered_outer true 7 5 none = decide (7 ≤ 5) :=
  ⟨unanswered_failure_modes.1 3 5 (by decide) (by decide),
   unanswered_failure_modes.2 7 5 none⟩

/-- Claim C9: a fetched comment whose body, lowercased, starts with
`[deleted]` or `[removed]` never counts toward the meaningful-comment
total, whatever `is_meaningful_comment` would say about that body. -/
theorem deleted_removed_never_counted (c : RedditComment) (b : String)
    (hb : c.body = some b)
    (hpre : List.isPrefixOf "[deleted]".data (lowerL b.data) = true ∨
      List.isPrefixOf "[removed]".data (lowerL b.data) = true) :
    comment_counts_meaningful c = false := by
  cases c with
  | mk body =>
    cases hb
    unfold comment_counts_meaningful
    dsimp only
    by_cases he : b.data = []
    · rw [if_pos he]
    · rw [if_neg he, if_pos (by rcases hpre with h | h <;> simp [h])]

/-- Witness for claim C9: a `[removed]` comment body that
`is_meaningful_comment` itself would accept (it is long and contains
meaningful indicators) still does not count. -/
theorem deleted_removed_never_counted_witness :
    is_meaningful_comment
        "[removed] i recommend you try this solution it worked for me" = true ∧
      comment_counts_meaningful
        ⟨some "[removed] i recommend you try this solution it worked for me"⟩ = false :=
  ⟨by decide,
   deleted_removed_never_counted
     ⟨some "[removed] i recommend you try this solution it worked for me"⟩
     "[removed] i recommend you try this solution it worked for me"
     rfl (Or.inr (by decide))⟩

/-- Claim C3: `is_meaningful_comment` accepts a comment body exactly
when the stripped body is at least 15 characters long, the lowercased
stripped body is not one of the fixed low-quality phrases, the
whitespace word count is at least 5, and either the word count is at
least 20 or a meaningful-indicator phrase occurs; in particular it
rejects `"thanks"` and accepts the long recommendation comment. -/
theorem meaningful_comment_spec :
    (∀ comment_body : String,
        is_meaningful_comment comment_body = true ↔
          (15 ≤ (stripL comment_body.data).length ∧
            (low_quality.map String.data).contains
              (stripL (lowerL comment_body.data)) = false ∧
            5 ≤ (wordsL comment_body.data).length ∧
            (20 ≤ (wordsL comment_body.data).length ∨
              meaningful_indicators.any
                (fun ind => listContainsSub (stripL (lowerL comment_body.data)) ind.data)
                = true))) ∧
      is_meaningful_comment "thanks" = false ∧
      is_meaningful_comment
        "I recommend trying the free Moz course, it really worked for me and covers on-page SEO basics well"
        = true := by
  refine ⟨fun b => ?_, by decide, by decide⟩
  unfold is_meaningful_comment
  dsimp only
  by_cases h0 : b.data = []
  · have hs : stripL b.data = [] := by rw [h0]; rfl
    rw [if_pos (by simp [h0])]
    simp [hs]
  · by_cases h1 : (stripL b.data).length < 15
    · rw [if_pos (by simp [h0, h1])]
      constructor
      · intro hfalse; cases hfalse
      · rintro ⟨h15, -⟩; omega
    · rw [if_neg (by simp [h0, h1])]
      by_cases h2 : (low_quality.map String.data).contains (stripL (lowerL b.data))
      · rw [if_pos h2]
        constructor
        · intro hfalse; cases hfalse
        · rintro ⟨-, hcontains, -⟩
          rw [h2] at hcontains
          cases hcontains
      · rw [if_neg h2]
        simp only [Bool.and_eq_true, Bool.or_eq_true, decide_eq_true_eq,
          Bool.not_eq_true] at h2 ⊢
        constructor
        · rintro ⟨hwc, hrest⟩
          refine ⟨by omega, h2, hwc, ?_⟩
          rcases hrest with hind | hwc20
          · exact Or.inr hind
          · exact Or.inl hwc20
        · rintro ⟨-, -, hwc, hrest⟩
          refine ⟨hwc, ?_⟩
          rcases hrest with hwc20 | hind
          · exact Or.inr hwc20
          · exact Or.inl hind

end Reddit
